import Mathlib

set_option maxHeartbeats 1000000

/-
Verification of the document-extraction and estimation pipeline of
src/main.py (a Streamlit estimation-support application).

The embedding below translates, from the source:
  - the helper function extract_text_from_files (directory scan, per-format
    extraction, OCR routing for PDFs, per-file error recovery),
  - the corpus truncation performed by the estimate-button handler,
  - the configuration checks of the two button handlers,
and models Python string primitives (strip, lower, the in operator,
slicing) over Lean strings viewed as lists of characters.

The estimation rule engine (electronic deliverable cost) is present in the
repository only as natural-language prompt text, not as executable code;
it is modelled from the spec where noted.
-/

/- ### Python string primitives -/

/-- Python str.strip on a list of characters: drop whitespace at both ends. -/
def stripChars (cs : List Char) : List Char :=
  ((cs.dropWhile Char.isWhitespace).reverse.dropWhile Char.isWhitespace).reverse

/-- Python str.strip for a string value. -/
def pyStrip (s : String) : String := String.mk (stripChars s.data)

/-- Python str.lower, modelled at the character level. -/
def pyLower (s : String) : String := String.mk (s.data.map Char.toLower)

/-- Python substring membership (the in operator) on character lists. -/
def containsSub (pat : List Char) : List Char → Bool
  | [] => pat.isEmpty
  | c :: rest => pat.isPrefixOf (c :: rest) || containsSub pat rest

/-- Python substring membership for strings. -/
def pyIn (pat s : String) : Bool := containsSub pat.data s.data

/-- Number of (possibly overlapping) occurrence positions of a pattern in a
character list. -/
def countSub (pat : List Char) : List Char → Nat
  | [] => if pat.isEmpty then 1 else 0
  | c :: rest => (if pat.isPrefixOf (c :: rest) then 1 else 0) + countSub pat rest

def emptyS : String := ""

/-- Concatenation of a list of strings (repeated Python string addition). -/
def strJoin (l : List String) : String := l.foldl (fun a b => a ++ b) emptyS

/- ### String constants of src/main.py (literals of the source) -/

def nlS : String := "\n"
/-- The per-file separator header stem used by every format branch. -/
def hdrMark : String := "\n\n--- ファイル名: "
def pdfTag : String := " (PDF) ---\n"
def wordTag : String := " (Word) ---\n"
def xlTag : String := " (Excel) ---\n"
def noFolderText : String := "dataフォルダが見つかりません。"
def noFolderLog : String := "フォルダなし"
def noFilesText : String := "ファイルなし"
def noFilesLog : String := "ファイルが見つかりません"
def readErrPre : String := "❌ 読込エラー: "
def dashSep : String := " - "
def ocrTryPre : String := "ℹ️ "
def ocrTrySuf : String := " はテキスト情報が少ないため、OCR処理を試みます。時間がかかります..."
def ocrOkPre : String := "✅ "
def ocrOkSuf : String := " のOCR解析に成功しました。"
def ocrEmptyNote : String := "(OCRを実行しましたが文字を認識できませんでした)\n"
def warnPre : String := "⚠️ "
def ocrEmptySuf : String := " のOCRを実行しましたが、有効な文字を認識できませんでした。"
def ocrErrNote : String := "(OCR処理中にエラーが発生しました)\n"
def tessPat : String := "tesseract is not installed"
def foundPat : String := "found"
def popplerPat : String := "poppler"
def tessLogPre : String := "❌ OCRエラー: Tesseractが見つかりません。パス設定を確認してください。\n詳細: "
def popplerLogPre : String := "❌ OCRエラー: Popplerが見つかりません。インストールとパス設定を確認してください。\n詳細: "
def errX : String := "❌ "
def ocrFailMid : String := " のOCR処理エラー: "
def ocrUnavailNote : String := "(OCRライブラリが不足しているため画像文字は読めません)\n"
def ocrUnavailSuf : String := " は画像PDFの可能性がありますが、OCRライブラリが導入されていないためスキップします。"
def pageLogPre : String := "  - "
def slashS : String := "/"
def pageLogSuf : String := "ページ目をOCR解析中..."
def sheetLbl : String := "Sheet: "

/- ### Data model -/

/-- One spreadsheet cell as seen by pandas: either missing (NaN) or a string
value. -/
inductive Cell
  | nan
  | val (s : String)
deriving DecidableEq

/-- A pandas DataFrame as read from one sheet: column names and cell rows. -/
structure Frame where
  cols : List String
  rows : List (List Cell)
deriving DecidableEq

/-- Outcome of the OCR pass attempted on a routed PDF: either the conversion
or recognition step raises, or every page yields a recognized text. -/
inductive OCRRun
  | raises (msg : String)
  | images (texts : List String)
deriving DecidableEq

/-- Content of one discovered file, by format branch of the source.
readError models any exception escaping to the per-file handler while the
file is being read (before any log line for it is emitted, which is where
every such exception occurs in the source). -/
inductive FileContent
  | pdf (pages : List String) (ocr : OCRRun)
  | docx (paras : List String)
  | xlsx (sheets : List (String × Frame))
  | readError (msg : String)
deriving DecidableEq

/-- One file discovered by the directory scan: base name plus content. -/
structure SrcFile where
  name : String
  content : FileContent
deriving DecidableEq

/- ### Spreadsheet rendering (xlsx branch) -/

/-- The literal pandas prints for a missing value when it is not filled. -/
def nanLit : String := "nan"

/-- How one cell appears in the rendered table. -/
def renderCell : Cell → String
  | .nan => nanLit
  | .val s => s

/-- df.fillna with the empty string: missing cells become empty strings. -/
def fillnaCell : Cell → Cell
  | .nan => .val emptyS
  | .val s => .val s

/-- fillna applied to a whole frame. -/
def fillnaFrame (fr : Frame) : Frame :=
  ⟨fr.cols, fr.rows.map (fun r => r.map fillnaCell)⟩

def barSep : String := " | "
def barOpen : String := "| "
def barClose : String := " |"
def sepCell : String := ":--"

/-- Join strings with a separator. -/
def joinSep (sep : String) : List String → String
  | [] => emptyS
  | [x] => x
  | x :: y :: rest => x ++ sep ++ joinSep sep (y :: rest)

/-- One markdown table row. -/
def mdRow (cells : List String) : String :=
  barOpen ++ joinSep barSep cells ++ barClose

/-- Simplified model of df.to_markdown(index = false): header row, alignment
row, then one row per data row (column padding is not modelled). -/
def toMarkdown (fr : Frame) : String :=
  mdRow fr.cols ++ nlS ++ mdRow (fr.cols.map (fun _ => sepCell)) ++ nlS
    ++ joinSep nlS (fr.rows.map (fun r => mdRow (r.map renderCell)))

/-- The text added for one sheet: label line, then the markdown table of the
frame after fillna, then a newline. -/
def sheetBlock (sh : String × Frame) : String :=
  sheetLbl ++ sh.1 ++ nlS ++ toMarkdown (fillnaFrame sh.2) ++ nlS

def xlsxHeader (name : String) : String := hdrMark ++ name ++ xlTag

/-- The whole text block of one xlsx file. -/
def xlsxText (name : String) (sheets : List (String × Frame)) : String :=
  sheets.foldl (fun acc sh => acc ++ sheetBlock sh) (xlsxHeader name)

/- ### Word branch -/

def docxHeader (name : String) : String := hdrMark ++ name ++ wordTag

/-- The whole text block of one docx file: header then every paragraph
followed by a newline. -/
def docxText (name : String) (paras : List String) : String :=
  paras.foldl (fun acc p => acc ++ p ++ nlS) (docxHeader name)

/- ### PDF branch -/

def pdfHeader (name : String) : String := hdrMark ++ name ++ pdfTag

/-- Native extraction: pages whose extracted text is truthy (non-empty)
contribute their text plus a newline. -/
def pdfRawText (pages : List String) : String :=
  pages.foldl (fun acc p => if p.isEmpty then acc else acc ++ p ++ nlS) emptyS

/-- Concatenation of the per-page OCR results, each followed by a newline. -/
def ocrJoin (texts : List String) : String :=
  texts.foldl (fun acc t => acc ++ t ++ nlS) emptyS

/-- The routing decision of the source: the document is treated as a likely
image PDF when the stripped native text of the whole document has fewer than
50 characters. -/
def pdfRouted (pages : List String) : Bool :=
  decide ((pyStrip (pdfRawText pages)).length < 50)

def ocrTryLog (name : String) : String := ocrTryPre ++ name ++ ocrTrySuf
def ocrOkLog (name : String) : String := ocrOkPre ++ name ++ ocrOkSuf
def ocrEmptyLog (name : String) : String := warnPre ++ name ++ ocrEmptySuf
def ocrUnavailLog (name : String) : String := warnPre ++ name ++ ocrUnavailSuf
def genericOcrLog (name msg : String) : String := errX ++ name ++ ocrFailMid ++ msg
def tessLog (msg : String) : String := tessLogPre ++ msg
def popplerLog (msg : String) : String := popplerLogPre ++ msg

/-- The error log emitted when the OCR pass raises: the lowered message is
matched against dependency markers, and the matching classified entry is
produced. -/
def classifyOcrLog (name msg : String) : String :=
  let em := pyLower msg
  if pyIn tessPat em || pyIn foundPat em then tessLog msg
  else if pyIn popplerPat em then popplerLog msg
  else genericOcrLog name msg

/-- The log emitted by the per-file exception handler. -/
def readErrLog (name msg : String) : String := readErrPre ++ name ++ dashSep ++ msg

/-- The per-page OCR progress log line. -/
def pageLogEntry (i n : Nat) : String :=
  pageLogPre ++ Nat.repr i ++ slashS ++ Nat.repr n ++ pageLogSuf

/-- The progress log lines for n OCR-processed pages. -/
def pageLogsFor (n : Nat) : List String :=
  (List.range n).map (fun i => pageLogEntry (i + 1) n)

/-- Processing of one PDF file: native extraction, routing decision, OCR
attempt with its fallback cascade. Returns the text block contributed to the
corpus and the log lines appended, in order. -/
def processPdf (avail : Bool) (name : String) (pages : List String)
    (ocr : OCRRun) : String × List String :=
  let raw := pdfRawText pages
  if (pyStrip raw).length < 50 then
    if avail then
      match ocr with
      | .raises msg =>
          (pdfHeader name ++ ocrErrNote ++ raw,
            [ocrTryLog name, classifyOcrLog name msg])
      | .images texts =>
          let ot := ocrJoin texts
          if (pyStrip ot).isEmpty then
            (pdfHeader name ++ ocrEmptyNote ++ raw,
              ocrTryLog name :: pageLogsFor texts.length ++ [ocrEmptyLog name])
          else
            (pdfHeader name ++ ot,
              ocrTryLog name :: pageLogsFor texts.length ++ [ocrOkLog name])
    else
      (pdfHeader name ++ ocrUnavailNote ++ raw,
        [ocrTryLog name, ocrUnavailLog name])
  else
    (pdfHeader name ++ raw, [])

/- ### The extraction function -/

/-- Processing of one discovered file: the contributed text block when the
file completes (none when its read raises), and the appended log lines. -/
def processFile (avail : Bool) (f : SrcFile) : Option String × List String :=
  match f.content with
  | .pdf pages ocr =>
      (some (processPdf avail f.name pages ocr).1,
        (processPdf avail f.name pages ocr).2)
  | .docx paras => (some (docxText f.name paras), [])
  | .xlsx sheets => (some (xlsxText f.name sheets), [])
  | .readError msg => (none, [readErrLog f.name msg])

/-- One iteration of the file loop over the accumulated
(combined_text, file_count, debug_logs) state. -/
def stepFile (avail : Bool) (acc : String × Nat × List String) (f : SrcFile) :
    String × Nat × List String :=
  match processFile avail f with
  | (some t, fl) => (acc.1 ++ t, acc.2.1 + 1, acc.2.2 ++ fl)
  | (none, fl) => (acc.1, acc.2.1, acc.2.2 ++ fl)

/-- The file loop of extract_text_from_files from the empty state. -/
def runFiles (avail : Bool) (files : List SrcFile) : String × Nat × List String :=
  files.foldl (stepFile avail) (emptyS, 0, [])

/-- extract_text_from_files: avail is the module-level OCR availability flag,
folderExists the conjunction folder_path and os.path.exists(folder_path),
files the discovery-ordered glob result over the three accepted extensions.
Returns (combined_text, file_count, debug_logs). -/
def extract_text_from_files (avail : Bool) (folderExists : Bool)
    (files : List SrcFile) : String × Nat × List String :=
  if folderExists then
    if files.isEmpty then (noFilesText, 0, [noFilesLog])
    else runFiles avail files
  else (noFolderText, 0, [noFolderLog])

/- ### Button handlers and corpus truncation -/

/-- Python truthiness of the credential read from the environment: falsy when
the variable is absent or empty. -/
def pyStrFalsy : Option String → Bool
  | none => true
  | some s => s.isEmpty

/-- What a button handler does when clicked: show a configuration error, or
run the extraction pipeline. -/
inductive HandlerAction
  | configError
  | extraction
deriving DecidableEq

/-- The estimate-button handler gate: rejects when the credential is falsy or
the data folder is missing, otherwise extracts. -/
def estimateHandler (apiKey : Option String) (folderExists : Bool) :
    HandlerAction :=
  if pyStrFalsy apiKey || !folderExists then .configError else .extraction

/-- The debug-button handler: runs the extraction unconditionally. -/
def debugHandler (_apiKey : Option String) (_folderExists : Bool) :
    HandlerAction :=
  .extraction

/-- The literal appended by the estimate handler on truncation. -/
def truncMarker : String := "\n...(以下省略)..."

/-- The character budget of this iteration. -/
def contextLimit : Nat := 100000

/-- The truncation step of the estimate handler: a corpus over the budget is
cut to the first contextLimit characters and the marker is appended. -/
def truncateContext (s : String) : String :=
  if s.length > contextLimit then String.mk (s.data.take contextLimit) ++ truncMarker
  else s

/-- The estimate handler between extraction and prompt assembly: the corpus
is truncated, the file count and the log list pass through untouched. -/
def estimatePrepare (r : String × Nat × List String) :
    String × Nat × List String :=
  (truncateContext r.1, r.2.1, r.2.2)

/- ### Estimation rule engine (modelled from the spec) -/

/-- Modelled from the spec: step 1 of electronic_deliverable_cost, the direct
labor cost in integer units of 1000 currency, truncated toward zero. The
estimation rule engine exists in the repository only as prompt text. -/
def edc_step1 (L : Nat) : Nat := L / 1000

/-- Modelled from the spec: step 2, the value 6.9 times k to the power 0.45. -/
noncomputable def edc_step2 (k : Nat) : Real :=
  (69 / 10 : Real) * (k : Real) ^ ((45 : Real) / 100)

/-- Modelled from the spec: step 3, scaling by 1000. -/
noncomputable def edc_step3 (v : Real) : Real := v * 1000

/-- Modelled from the spec: step 4, flooring the amount to the nearest 1000
by truncating the last three digits. -/
noncomputable def edc_step4 (a : Real) : Int := ⌊a / 1000⌋ * 1000

/-- Modelled from the spec: the electronic deliverable cost as the exact
four-step sequence over a non-negative integer direct labor cost. -/
noncomputable def electronic_deliverable_cost (L : Nat) : Int :=
  edc_step4 (edc_step3 (edc_step2 (edc_step1 L)))

/- ### Basic string lemmas -/

lemma str_eq_of_data {a b : String} (h : a.data = b.data) : a = b := by
  cases a; cases b; exact congrArg String.mk h

lemma str_data_append (a b : String) : (a ++ b).data = a.data ++ b.data := by
  cases a; cases b; rfl

lemma emptyS_data : emptyS.data = [] := rfl

lemma str_append_assoc (a b c : String) : a ++ b ++ c = a ++ (b ++ c) := by
  apply str_eq_of_data; simp [str_data_append]

lemma str_append_emptyS (s : String) : s ++ emptyS = s := by
  apply str_eq_of_data; simp [str_data_append, emptyS_data]

lemma str_emptyS_append (s : String) : emptyS ++ s = s := by
  apply str_eq_of_data; simp [str_data_append, emptyS_data]

lemma str_length_data (s : String) : s.length = s.data.length := by
  cases s; rfl

lemma str_length_append (a b : String) : (a ++ b).length = a.length + b.length := by
  rw [str_length_data, str_data_append, List.length_append, str_length_data,
    str_length_data]

/- ### Join lemmas -/

lemma strJoin_nil : strJoin [] = emptyS := rfl

lemma strFold_shift (l : List String) (init : String) :
    l.foldl (fun a b => a ++ b) init = init ++ strJoin l := by
  induction l generalizing init with
  | nil => simp [strJoin, str_append_emptyS]
  | cons x xs ih =>
    simp only [List.foldl_cons, strJoin]
    rw [ih (init ++ x), ih (emptyS ++ x)]
    rw [str_emptyS_append, str_append_assoc]

lemma strJoin_cons (y : String) (ys : List String) :
    strJoin (y :: ys) = y ++ strJoin ys := by
  simp only [strJoin, List.foldl_cons]
  rw [strFold_shift, str_emptyS_append]
  rfl

lemma foldl_glue {α : Type} (g : α → String) (l : List α) (init : String) :
    l.foldl (fun acc x => acc ++ g x) init = init ++ strJoin (l.map g) := by
  induction l generalizing init with
  | nil => simp [strJoin, str_append_emptyS]
  | cons x xs ih =>
    simp only [List.foldl_cons, List.map_cons]
    rw [ih (init ++ g x), strJoin_cons, str_append_assoc]

/- ### The file loop as a monoid action -/

lemma runFiles_shift (avail : Bool) (files : List SrcFile) (c : String) (n : Nat)
    (l : List String) :
    files.foldl (stepFile avail) (c, n, l) =
      (c ++ (runFiles avail files).1, n + (runFiles avail files).2.1,
        l ++ (runFiles avail files).2.2) := by
  induction files generalizing c n l with
  | nil => simp [runFiles, str_append_emptyS]
  | cons f fs ih =>
    simp only [runFiles, List.foldl_cons]
    rcases hpf : processFile avail f with ⟨o, fl⟩
    cases o with
    | some t =>
      have hstep : ∀ (c : String) (n : Nat) (l : List String),
          stepFile avail (c, n, l) f = (c ++ t, n + 1, l ++ fl) := by
        intro c n l
        simp [stepFile, hpf]
      rw [hstep, hstep, ih, ih]
      simp only [Prod.mk.injEq]
      refine ⟨?_, ?_, ?_⟩
      · rw [str_emptyS_append, str_append_assoc]
      · omega
      · simp [List.append_assoc]
    | none =>
      have hstep : ∀ (c : String) (n : Nat) (l : List String),
          stepFile avail (c, n, l) f = (c, n, l ++ fl) := by
        intro c n l
        simp [stepFile, hpf]
      rw [hstep, hstep, ih, ih]
      simp only [Prod.mk.injEq]
      refine ⟨rfl, by omega, ?_⟩
      simp [List.append_assoc]

/- ### Branch behavior of the PDF pipeline -/

lemma processPdf_native (avail : Bool) (name : String) (pages : List String)
    (ocr : OCRRun) (h : ¬ (pyStrip (pdfRawText pages)).length < 50) :
    processPdf avail name pages ocr = (pdfHeader name ++ pdfRawText pages, []) := by
  simp [processPdf, h]

lemma processPdf_unavail (name : String) (pages : List String) (ocr : OCRRun)
    (h : (pyStrip (pdfRawText pages)).length < 50) :
    processPdf false name pages ocr =
      (pdfHeader name ++ ocrUnavailNote ++ pdfRawText pages,
        [ocrTryLog name, ocrUnavailLog name]) := by
  simp [processPdf, h]

lemma processPdf_raises (name msg : String) (pages : List String)
    (h : (pyStrip (pdfRawText pages)).length < 50) :
    processPdf true name pages (OCRRun.raises msg) =
      (pdfHeader name ++ ocrErrNote ++ pdfRawText pages,
        [ocrTryLog name, classifyOcrLog name msg]) := by
  simp [processPdf, h]

lemma processPdf_ocr_empty (name : String) (pages texts : List String)
    (h : (pyStrip (pdfRawText pages)).length < 50)
    (he : (pyStrip (ocrJoin texts)).isEmpty = true) :
    processPdf true name pages (OCRRun.images texts) =
      (pdfHeader name ++ ocrEmptyNote ++ pdfRawText pages,
        ocrTryLog name :: pageLogsFor texts.length ++ [ocrEmptyLog name]) := by
  simp [processPdf, h, he]

lemma processPdf_ocr_ok (name : String) (pages texts : List String)
    (h : (pyStrip (pdfRawText pages)).length < 50)
    (he : (pyStrip (ocrJoin texts)).isEmpty = false) :
    processPdf true name pages (OCRRun.images texts) =
      (pdfHeader name ++ ocrJoin texts,
        ocrTryLog name :: pageLogsFor texts.length ++ [ocrOkLog name]) := by
  simp [processPdf, h, he]

/- ### Shape of the whole run -/

lemma runFiles_spec (avail : Bool) (files : List SrcFile) :
    runFiles avail files =
      (strJoin (files.filterMap (fun f => (processFile avail f).1)),
        (files.filter (fun f => (processFile avail f).1.isSome)).length,
        (files.map (fun f => (processFile avail f).2)).flatten) := by
  induction files with
  | nil => simp [runFiles, strJoin]
  | cons f fs ih =>
    simp only [runFiles, List.foldl_cons]
    rcases hpf : processFile avail f with ⟨o, fl⟩
    cases o with
    | some t =>
      have hstep : stepFile avail (emptyS, 0, []) f = (emptyS ++ t, 1, [] ++ fl) := by
        simp [stepFile, hpf]
      rw [hstep, runFiles_shift, ih]
      simp only [List.filterMap_cons, List.filter_cons, List.map_cons, hpf,
        Option.isSome_some, if_true, List.length_cons, List.flatten_cons,
        strJoin_cons, Prod.mk.injEq]
      refine ⟨?_, by omega, by simp⟩
      rw [str_emptyS_append]
    | none =>
      have hstep : stepFile avail (emptyS, 0, []) f = (emptyS, 0, [] ++ fl) := by
        simp [stepFile, hpf]
      rw [hstep, runFiles_shift, ih]
      simp only [List.filterMap_cons, List.filter_cons, List.map_cons, hpf,
        Option.isSome_none, List.flatten_cons, Prod.mk.injEq]
      refine ⟨by rw [str_emptyS_append], by simp, by simp⟩

/- ### Decomposition of the per-format blocks -/

lemma hdr3_split (a b c d : String) : a ++ b ++ c ++ d = a ++ (b ++ (c ++ d)) := by
  rw [str_append_assoc, str_append_assoc]

lemma docxText_eq (name : String) (paras : List String) :
    docxText name paras = docxHeader name ++ strJoin (paras.map (fun p => p ++ nlS)) := by
  unfold docxText
  rw [show (fun (acc : String) p => acc ++ p ++ nlS)
        = (fun (acc : String) p => acc ++ (p ++ nlS)) from by
      funext a p
      rw [str_append_assoc]]
  exact foldl_glue _ _ _

lemma xlsxText_eq (name : String) (sheets : List (String × Frame)) :
    xlsxText name sheets = xlsxHeader name ++ strJoin (sheets.map sheetBlock) := by
  unfold xlsxText
  exact foldl_glue _ _ _

/- ### Every contributed block starts with the separator header -/

lemma processPdf_fst (avail : Bool) (name : String) (pages : List String)
    (ocr : OCRRun) :
    exists u, (processPdf avail name pages ocr).1 = pdfHeader name ++ u := by
  by_cases h : (pyStrip (pdfRawText pages)).length < 50
  . cases avail with
    | false =>
      refine Exists.intro (ocrUnavailNote ++ pdfRawText pages) ?_
      rw [processPdf_unavail _ _ _ h]
      exact str_append_assoc _ _ _
    | true =>
      cases ocr with
      | raises msg =>
        refine Exists.intro (ocrErrNote ++ pdfRawText pages) ?_
        rw [processPdf_raises _ _ _ h]
        exact str_append_assoc _ _ _
      | images texts =>
        cases he : (pyStrip (ocrJoin texts)).isEmpty with
        | false =>
          refine Exists.intro (ocrJoin texts) ?_
          rw [processPdf_ocr_ok _ _ _ h he]
        | true =>
          refine Exists.intro (ocrEmptyNote ++ pdfRawText pages) ?_
          rw [processPdf_ocr_empty _ _ _ h he]
          exact str_append_assoc _ _ _
  . refine Exists.intro (pdfRawText pages) ?_
    rw [processPdf_native _ _ _ _ h]

lemma processFile_block_hdr (avail : Bool) (f : SrcFile) (t : String)
    (fl : List String) (h : processFile avail f = (some t, fl)) :
    exists rest, t = hdrMark ++ rest := by
  rcases f with ⟨name, content⟩
  cases content with
  | pdf pages ocr =>
    rcases processPdf_fst avail name pages ocr with ⟨u, hu⟩
    simp only [processFile, Prod.mk.injEq, Option.some.injEq] at h
    rcases h with ⟨ht, -⟩
    refine Exists.intro (name ++ (pdfTag ++ u)) ?_
    rw [← ht, hu]
    exact hdr3_split _ _ _ _
  | docx paras =>
    simp only [processFile, Prod.mk.injEq, Option.some.injEq] at h
    rcases h with ⟨ht, -⟩
    refine Exists.intro (name ++ (wordTag ++ strJoin (paras.map (fun p => p ++ nlS)))) ?_
    rw [← ht, docxText_eq]
    exact hdr3_split _ _ _ _
  | xlsx sheets =>
    simp only [processFile, Prod.mk.injEq, Option.some.injEq] at h
    rcases h with ⟨ht, -⟩
    refine Exists.intro (name ++ (xlTag ++ strJoin (sheets.map sheetBlock))) ?_
    rw [← ht, xlsxText_eq]
    exact hdr3_split _ _ _ _
  | readError msg =>
    simp [processFile] at h

/- ### Truncation length -/

lemma truncateContext_long {s : String} (h : s.length > contextLimit) :
    (truncateContext s).length = contextLimit + truncMarker.length := by
  simp only [truncateContext, if_pos h]
  rw [str_length_append]
  have h1 : (String.mk (s.data.take contextLimit)).length = contextLimit := by
    show (s.data.take contextLimit).length = contextLimit
    rw [List.length_take]
    have h2 := str_length_data s
    omega
  rw [h1]

/- ### Bounds for the electronic deliverable cost at 1234 -/

lemma edc_pow_eq :
    ((1234 : Real) ^ ((45 : Real) / 100)) ^ (20 : Nat) = (1234 : Real) ^ (9 : Nat) := by
  rw [← Real.rpow_natCast ((1234 : Real) ^ ((45 : Real) / 100)) 20,
    ← Real.rpow_mul (by norm_num : (0 : Real) ≤ 1234)]
  rw [show (45 : Real) / 100 * (20 : Nat) = ((9 : Nat) : Real) by push_cast; norm_num]
  rw [Real.rpow_natCast]

lemma edc_x_lb : (49 / 2 : Real) ≤ (1234 : Real) ^ ((45 : Real) / 100) := by
  have hx : (0 : Real) ≤ (1234 : Real) ^ ((45 : Real) / 100) :=
    Real.rpow_nonneg (by norm_num) _
  have h : ((49 : Real) / 2) ^ (20 : Nat)
      ≤ ((1234 : Real) ^ ((45 : Real) / 100)) ^ (20 : Nat) := by
    rw [edc_pow_eq]
    norm_num
  exact le_of_pow_le_pow_left₀ (by norm_num) hx h

lemma edc_x_ub : (1234 : Real) ^ ((45 : Real) / 100) < 2463 / 100 := by
  have h : ((1234 : Real) ^ ((45 : Real) / 100)) ^ (20 : Nat)
      < ((2463 : Real) / 100) ^ (20 : Nat) := by
    rw [edc_pow_eq]
    norm_num
  exact lt_of_pow_lt_pow_left₀ 20 (by norm_num) h

lemma edc_floor_1234 :
    (⌊(69 / 10 : Real) * (1234 : Real) ^ ((45 : Real) / 100) * 1000 / 1000⌋ : Int)
      = 169 := by
  have hs : (69 / 10 : Real) * (1234 : Real) ^ ((45 : Real) / 100) * 1000 / 1000
      = (69 / 10 : Real) * (1234 : Real) ^ ((45 : Real) / 100) := by
    field_simp
    ring
  rw [hs, Int.floor_eq_iff]
  constructor
  . have h := mul_le_mul_of_nonneg_left edc_x_lb (by norm_num : (0 : Real) ≤ 69 / 10)
    push_cast
    nlinarith
  . have h := mul_lt_mul_of_pos_left edc_x_ub (by norm_num : (0 : Real) < 69 / 10)
    push_cast
    nlinarith

/-- Claim C2: for every non-negative integer direct labor cost L, the
electronic deliverable cost follows the exact 4-step sequence (floor division
by 1000, the power value 6.9 times k to the 0.45, scaling by 1000, flooring
to the nearest 1000); in particular it returns 0 at L = 0 and, at the
non-round input L = 1234567, the value 169000 that the 4-step computation
produces. -/
theorem claim2_theorem :
    electronic_deliverable_cost 0 = 0 ∧
    electronic_deliverable_cost 1234567 = 169000 ∧
    ∀ L : Nat, electronic_deliverable_cost L =
      edc_step4 (edc_step3 (edc_step2 (edc_step1 L))) := by
  refine ⟨?_, ?_, fun L => rfl⟩
  . have h2 : edc_step2 (edc_step1 0) = 0 := by
      simp [edc_step1, edc_step2, Real.zero_rpow (show (45 : Real) / 100 ≠ 0 by norm_num)]
    simp [electronic_deliverable_cost, h2, edc_step3, edc_step4]
  . have hk : edc_step1 1234567 = 1234 := by norm_num [edc_step1]
    show edc_step4 (edc_step3 (edc_step2 (edc_step1 1234567))) = 169000
    rw [hk]
    unfold edc_step2 edc_step3 edc_step4
    push_cast
    rw [edc_floor_1234]
    norm_num

/-- Claim C4 counterexample: with the credential absent from the environment
and the data folder present, the debug-button request is not rejected as a
configuration error — it runs the extraction (and hence file input/output)
anyway, refuting the claim that every request is rejected before any file
input/output. -/
theorem claim4_counterexample :
    debugHandler (none : Option String) true = HandlerAction.extraction ∧
    HandlerAction.extraction ≠ HandlerAction.configError := by
  decide

/-- Claim C4 (amended): if the API credential is absent from the environment,
the estimate-button request is rejected immediately as a configuration error
(before extraction); the debug-button request, however, performs extraction
regardless of the credential. -/
theorem claim4_theorem (fe : Bool) :
    estimateHandler none fe = HandlerAction.configError ∧
    estimateHandler (some emptyS) fe = HandlerAction.configError ∧
    debugHandler none fe = HandlerAction.extraction := by
  refine ⟨?_, ?_, rfl⟩ <;> cases fe <;> decide

/-- Claim C5: a missing (or falsy) input directory, or an existing directory
with zero matching files, makes extract_text_from_files return a zero file
count together with a non-empty diagnostic message, without raising. -/
theorem claim5_theorem (avail : Bool) (files : List SrcFile) :
    extract_text_from_files avail false files = (noFolderText, 0, [noFolderLog]) ∧
    extract_text_from_files avail true [] = (noFilesText, 0, [noFilesLog]) ∧
    noFolderLog ≠ emptyS ∧ noFilesLog ≠ emptyS := by
  refine ⟨?_, ?_, by decide, by decide⟩
  . simp [extract_text_from_files]
  . simp [extract_text_from_files]

/-- Claim C6: an exception raised while reading one file is caught and
recorded as a diagnostic entry built from the file name and the underlying
cause, the file contributes neither text nor count, and the remaining files
before and after it are processed exactly as they would be on their own —
no single malformed input aborts the run. -/
theorem claim6_theorem (avail : Bool) (name msg : String)
    (pre post : List SrcFile) :
    extract_text_from_files avail true
        (pre ++ ⟨name, FileContent.readError msg⟩ :: post) =
      ((runFiles avail pre).1 ++ (runFiles avail post).1,
        (runFiles avail pre).2.1 + (runFiles avail post).2.1,
        (runFiles avail pre).2.2 ++ readErrLog name msg :: (runFiles avail post).2.2) ∧
    readErrLog name msg = readErrPre ++ name ++ dashSep ++ msg := by
  refine ⟨?_, rfl⟩
  have hne : (pre ++ ⟨name, FileContent.readError msg⟩ :: post).isEmpty = false := by
    cases pre <;> rfl
  have hx : ∀ acc : String × Nat × List String,
      stepFile avail acc ⟨name, FileContent.readError msg⟩ =
        (acc.1, acc.2.1, acc.2.2 ++ [readErrLog name msg]) := by
    intro acc
    simp [stepFile, processFile]
  have main : runFiles avail (pre ++ ⟨name, FileContent.readError msg⟩ :: post) =
      ((runFiles avail pre).1 ++ (runFiles avail post).1,
        (runFiles avail pre).2.1 + (runFiles avail post).2.1,
        (runFiles avail pre).2.2 ++ readErrLog name msg :: (runFiles avail post).2.2) := by
    conv_lhs => simp only [runFiles]
    rw [List.foldl_append, List.foldl_cons, runFiles_shift avail pre, hx,
      runFiles_shift avail post]
    simp [str_emptyS_append]
  simp only [extract_text_from_files, hne, if_true, Bool.false_eq_true, if_false]
  exact main

/-- Claim C8: every sheet of a spreadsheet file contributes exactly one
labeled block to the file's text, and fillna runs before rendering, so a
missing cell is rendered as the empty string — never as the pandas missing
literal. -/
theorem claim8_theorem (avail : Bool) (name : String)
    (sheets : List (String × Frame)) :
    processFile avail ⟨name, FileContent.xlsx sheets⟩ =
      (some (xlsxHeader name ++ strJoin (sheets.map sheetBlock)), []) ∧
    renderCell (fillnaCell Cell.nan) = emptyS ∧
    (∀ s, renderCell (fillnaCell (Cell.val s)) = s) ∧
    renderCell (fillnaCell Cell.nan) ≠ nanLit := by
  refine ⟨?_, rfl, fun s => rfl, by decide⟩
  simp only [processFile, xlsxText_eq]

/- ### Concrete inputs -/

def aSixty : String := "aaaaaaaaaaaaaaaaaaaaaaaaaaaaaaaaaaaaaaaaaaaaaaaaaaaaaaaaaaaa"
def pageX : String := "x"
def c1Pages : List String := [aSixty, pageX]
def scanName : String := "scan.pdf"
def fiftyB : String := "bbbbbbbbbbbbbbbbbbbbbbbbbbbbbbbbbbbbbbbbbbbbbbbbbb"
def shortPage : String := "hi"
def spaceS : String := " "
def w7texts : List String := [emptyS, spaceS]
def ocrPage : String := "recognized text"
def w9texts : List String := [ocrPage]

/-- Claim C1 counterexample: the routing decision of the source is taken per
document, not per page. In the two-page document c1Pages, the page pageX has
a stripped native text of fewer than 50 characters, yet the document is not
routed to OCR (no log line is emitted and the native text is kept), because
the concatenated text of all pages reaches 50 characters. -/
theorem claim1_counterexample :
    (pageX ∈ c1Pages ∧ (pyStrip pageX).length < 50) ∧
    pdfRouted c1Pages = false ∧
    processPdf true scanName c1Pages (OCRRun.images []) =
      (pdfHeader scanName ++ pdfRawText c1Pages, []) := by
  decide

/-- Claim C1 (amended): the likely-image decision is per document: when the
native text of the whole document, concatenated over its pages and stripped,
has fewer than 50 characters, the document is routed to OCR (the routing log
entry is emitted first); when the stripped text has exactly 50 characters,
the document is not routed and its native text is accepted as-is. -/
theorem claim1_theorem (avail : Bool) (name : String) (pages : List String)
    (ocr : OCRRun) :
    ((pyStrip (pdfRawText pages)).length < 50 →
      ((processPdf avail name pages ocr).2).head? = some (ocrTryLog name)) ∧
    ((pyStrip (pdfRawText pages)).length = 50 →
      processPdf avail name pages ocr = (pdfHeader name ++ pdfRawText pages, [])) := by
  constructor
  . intro h
    cases avail with
    | false =>
      rw [processPdf_unavail _ _ _ h]
      rfl
    | true =>
      cases ocr with
      | raises msg =>
        rw [processPdf_raises _ _ _ h]
        rfl
      | images texts =>
        cases he : (pyStrip (ocrJoin texts)).isEmpty with
        | false =>
          rw [processPdf_ocr_ok _ _ _ h he]
          rfl
        | true =>
          rw [processPdf_ocr_empty _ _ _ h he]
          rfl
  . intro h
    exact processPdf_native _ _ _ _ (by omega)

theorem claim1_witness :
    ((pyStrip (pdfRawText [shortPage])).length < 50 ∧
      ((processPdf true scanName [shortPage] (OCRRun.raises emptyS)).2).head? =
        some (ocrTryLog scanName)) ∧
    ((pyStrip (pdfRawText [fiftyB])).length = 50 ∧
      processPdf true scanName [fiftyB] (OCRRun.raises emptyS) =
        (pdfHeader scanName ++ pdfRawText [fiftyB], [])) :=
  ⟨⟨by decide,
      (claim1_theorem true scanName [shortPage] (OCRRun.raises emptyS)).1 (by decide)⟩,
    ⟨by decide,
      (claim1_theorem true scanName [fiftyB] (OCRRun.raises emptyS)).2 (by decide)⟩⟩

/- ### Claim C3 -/

def aChar : Char := 'a'
def longCorpus : String := String.mk (List.replicate 100001 aChar)
/-- The marker literal named by the specification. -/
def claimedMarker : String := "...(truncated)..."
def shortCorpus : String := "abc"

lemma longCorpus_len : longCorpus.length > contextLimit := by
  show (List.replicate 100001 aChar).length > contextLimit
  rw [List.length_replicate]
  norm_num [contextLimit]

/-- Claim C3 counterexample: at a 100001-character corpus the truncated text
has length contextLimit plus the 13 characters of the marker the source
actually appends, not contextLimit plus the length of the specified literal
marker; and the estimate handler adds no diagnostic at truncation — the
diagnostic sequence stays empty. -/
theorem claim3_counterexample :
    longCorpus.length > contextLimit ∧
    (truncateContext longCorpus).length ≠ contextLimit + claimedMarker.length ∧
    (estimatePrepare (longCorpus, 1, ([] : List String))).2.2 = [] := by
  refine ⟨longCorpus_len, ?_, rfl⟩
  rw [truncateContext_long longCorpus_len]
  decide

/-- Claim C3 (amended): a corpus longer than the budget is cut so that the
text handed to the synthesis call has length contextLimit plus the length of
the marker the source appends; a corpus at or below the budget passes
through unchanged; and the diagnostic sequence is passed through untouched —
no warning is added at truncation. -/
theorem claim3_theorem (s : String) (n : Nat) (logs : List String) :
    (s.length > contextLimit →
      (truncateContext s).length = contextLimit + truncMarker.length) ∧
    (s.length ≤ contextLimit → truncateContext s = s) ∧
    (estimatePrepare (s, n, logs)).2.2 = logs := by
  refine ⟨fun h => truncateContext_long h, fun h => ?_, rfl⟩
  simp only [truncateContext, if_neg (by omega : ¬ s.length > contextLimit)]

theorem claim3_witness :
    (longCorpus.length > contextLimit ∧
      (truncateContext longCorpus).length = contextLimit + truncMarker.length) ∧
    (shortCorpus.length ≤ contextLimit ∧ truncateContext shortCorpus = shortCorpus) ∧
    (estimatePrepare (shortCorpus, 0, ([] : List String))).2.2 = [] :=
  ⟨⟨longCorpus_len, (claim3_theorem longCorpus 0 []).1 longCorpus_len⟩,
    ⟨by decide, (claim3_theorem shortCorpus 0 []).2.1 (by decide)⟩,
    (claim3_theorem shortCorpus 0 []).2.2⟩

/- ### Claim C7 -/

/-- Claim C7: for a PDF routed to OCR, every failure mode of the OCR step —
library unavailable, the conversion or recognition raising, or no text
recognized — falls back to the natively extracted text (prefixed with an
explanatory note), appends a warning or error diagnostic classifying the
cause, and the file still completes (its block is contributed and counted). -/
theorem claim7_theorem (name msg : String) (pages texts : List String)
    (ocr : OCRRun) (h : (pyStrip (pdfRawText pages)).length < 50) :
    processPdf false name pages ocr =
      (pdfHeader name ++ ocrUnavailNote ++ pdfRawText pages,
        [ocrTryLog name, ocrUnavailLog name]) ∧
    processPdf true name pages (OCRRun.raises msg) =
      (pdfHeader name ++ ocrErrNote ++ pdfRawText pages,
        [ocrTryLog name, classifyOcrLog name msg]) ∧
    ((pyStrip (ocrJoin texts)).isEmpty = true →
      processPdf true name pages (OCRRun.images texts) =
        (pdfHeader name ++ ocrEmptyNote ++ pdfRawText pages,
          ocrTryLog name :: pageLogsFor texts.length ++ [ocrEmptyLog name])) ∧
    (∀ avail : Bool,
      ((processFile avail ⟨name, FileContent.pdf pages ocr⟩).1).isSome = true) := by
  refine ⟨processPdf_unavail _ _ _ h, processPdf_raises _ _ _ h,
    fun he => processPdf_ocr_empty _ _ _ h he, fun avail => ?_⟩
  simp [processFile]

theorem claim7_witness :
    ((pyStrip (pdfRawText [shortPage])).length < 50 ∧
      processPdf false scanName [shortPage] (OCRRun.raises emptyS) =
        (pdfHeader scanName ++ ocrUnavailNote ++ pdfRawText [shortPage],
          [ocrTryLog scanName, ocrUnavailLog scanName])) ∧
    ((pyStrip (ocrJoin w7texts)).isEmpty = true ∧
      processPdf true scanName [shortPage] (OCRRun.images w7texts) =
        (pdfHeader scanName ++ ocrEmptyNote ++ pdfRawText [shortPage],
          ocrTryLog scanName :: pageLogsFor w7texts.length ++ [ocrEmptyLog scanName])) :=
  ⟨⟨by decide,
      (claim7_theorem scanName emptyS [shortPage] w7texts (OCRRun.raises emptyS)
        (by decide)).1⟩,
    ⟨by decide,
      (claim7_theorem scanName emptyS [shortPage] w7texts (OCRRun.raises emptyS)
        (by decide)).2.2.1 (by decide)⟩⟩

/- ### Claim C9 -/

/-- Claim C9: for a routed PDF whose OCR pass recognizes non-empty text, the
OCR text entirely replaces the native text in the file block (the block is
exactly the header followed by the OCR text); the native text is appended
only in the three fallback cases — OCR raising, OCR recognizing nothing, or
the OCR library being unavailable. -/
theorem claim9_theorem (name msg : String) (pages texts : List String)
    (ocr : OCRRun) (h : (pyStrip (pdfRawText pages)).length < 50) :
    ((pyStrip (ocrJoin texts)).isEmpty = false →
      processPdf true name pages (OCRRun.images texts) =
        (pdfHeader name ++ ocrJoin texts,
          ocrTryLog name :: pageLogsFor texts.length ++ [ocrOkLog name])) ∧
    ((pyStrip (ocrJoin texts)).isEmpty = true →
      processPdf true name pages (OCRRun.images texts) =
        (pdfHeader name ++ ocrEmptyNote ++ pdfRawText pages,
          ocrTryLog name :: pageLogsFor texts.length ++ [ocrEmptyLog name])) ∧
    processPdf true name pages (OCRRun.raises msg) =
      (pdfHeader name ++ ocrErrNote ++ pdfRawText pages,
        [ocrTryLog name, classifyOcrLog name msg]) ∧
    processPdf false name pages ocr =
      (pdfHeader name ++ ocrUnavailNote ++ pdfRawText pages,
        [ocrTryLog name, ocrUnavailLog name]) :=
  ⟨fun he => processPdf_ocr_ok _ _ _ h he,
    fun he => processPdf_ocr_empty _ _ _ h he,
    processPdf_raises _ _ _ h,
    processPdf_unavail _ _ _ h⟩

theorem claim9_witness :
    ((pyStrip (pdfRawText [shortPage])).length < 50 ∧
      (pyStrip (ocrJoin w9texts)).isEmpty = false) ∧
    processPdf true scanName [shortPage] (OCRRun.images w9texts) =
      (pdfHeader scanName ++ ocrJoin w9texts,
        ocrTryLog scanName :: pageLogsFor w9texts.length ++ [ocrOkLog scanName]) :=
  ⟨⟨by decide, by decide⟩,
    (claim9_theorem scanName emptyS [shortPage] w9texts (OCRRun.raises emptyS)
      (by decide)).1 (by decide)⟩

/- ### Claim C10 -/

/-- The separator-header string named by the claim. -/
def hdrCore : String := "--- ファイル名:"
def evilName : String := "e.docx"
def evilPara : String := "--- ファイル名: fake"
def evilFile : SrcFile := ⟨evilName, FileContent.docx [evilPara]⟩

/-- Claim C10 counterexample: a file whose own content contains the
separator-header string makes the number of occurrences of that string in
the returned text (2) differ from the returned file count (1), refuting the
claimed equality between the count and the number of separator headers found
in the text. -/
theorem claim10_counterexample :
    (extract_text_from_files true true [evilFile]).2.1 ≠
      countSub hdrCore.data (extract_text_from_files true true [evilFile]).1.data ∧
    (extract_text_from_files true true [evilFile]).2.1 = 1 ∧
    countSub hdrCore.data (extract_text_from_files true true [evilFile]).1.data = 2 := by
  refine ⟨?_, by decide, by decide⟩
  decide

/-- Claim C10 (amended): over an existing directory with matching files, the
returned file count equals the number of files whose processing completed
without an exception; the returned text is the concatenation of exactly one
block per such file, each block beginning with the separator header the
function emits; a file whose processing raised contributes neither text nor
count. (The count need not equal the number of occurrences of the header
string inside the returned text, since file content may itself contain that
string.) -/
theorem claim10_theorem (avail : Bool) (files : List SrcFile) (h : files ≠ []) :
    extract_text_from_files avail true files =
      (strJoin (files.filterMap (fun f => (processFile avail f).1)),
        (files.filter (fun f => (processFile avail f).1.isSome)).length,
        (files.map (fun f => (processFile avail f).2)).flatten) ∧
    ∀ f ∈ files, ∀ t fl, processFile avail f = (some t, fl) →
      ∃ rest, t = hdrMark ++ rest := by
  constructor
  . have hne : files.isEmpty = false := by
      cases files with
      | nil => exact absurd rfl h
      | cons a l => rfl
    simp only [extract_text_from_files, hne, if_true, Bool.false_eq_true, if_false]
    exact runFiles_spec avail files
  . intro f hf t fl hpt
    exact processFile_block_hdr avail f t fl hpt

def wDocName : String := "a.docx"
def wDoc : SrcFile := ⟨wDocName, FileContent.docx []⟩

theorem claim10_witness :
    ([wDoc] ≠ ([] : List SrcFile)) ∧
    (extract_text_from_files true true [wDoc] =
      (strJoin (List.filterMap (fun f => (processFile true f).1) [wDoc]),
        (List.filter (fun f => (processFile true f).1.isSome) [wDoc]).length,
        (List.map (fun f => (processFile true f).2) [wDoc]).flatten) ∧
      ∀ f ∈ [wDoc], ∀ t fl, processFile true f = (some t, fl) →
        ∃ rest, t = hdrMark ++ rest) :=
  ⟨by simp, claim10_theorem true [wDoc] (by simp)⟩
